import Mathlib

set_option linter.unusedVariables false

deriving instance DecidableEq for Except

/-!
Verification of the Heka Lua sandbox bridge
(src/sandbox/lua/lua_sandbox_interface.c).

The bridge sits between a host pipeline (Go side, reached through the
go_lua_* collaborators) and a guest Lua interpreter (reached through the
lua_* / lsb_* collaborators).  The C file under verification contains the
two host-driven entry points (process_message, timer_event), the three
guest-callable callbacks (read_config, read_message, inject_message) and
the registration function (sandbox_init).

External collaborators (the lua_sandbox library lsb_*, the Lua C API and
the Go host functions) are not part of the source tree; they are modelled
as explicit oracle parameters or, where the spec pins their behaviour
down, as definitions marked "Modelled from the spec".  Guest Lua numbers
are carried as mathematical integers; the claims under study exercise no
fractional values.
-/

namespace Heka

/-- Lua values as seen by the bridge at the boundary.  Tables and userdata
are opaque to the bridge (it only inspects their type tag), so they carry
an uninterpreted identifier. -/
inductive LuaValue
  | nil
  | boolean (b : Bool)
  | num (n : Int)
  | str (s : String)
  | table (id : Nat)
  | userdata (id : Nat)
  deriving DecidableEq

/-- The concrete Lua stack push performed by a callback for its single
result.  The constructors mirror the C calls: lua_pushnil, lua_pushlstring,
lua_pushinteger applied to a GoInt32 read, lua_pushnumber, lua_pushboolean. -/
inductive LuaPush
  | pushnil
  | pushlstring (s : String)
  | pushinteger32 (v : Int)
  | pushnumber (v : Int)
  | pushboolean (b : Bool)
  deriving DecidableEq

/-- Events the bridge performs on the guest interpreter during an entry
point call: the protected invocation of the guest function, and an explicit
garbage-collection pass (lua_gc LUA_GCCOLLECT). -/
inductive BridgeEvent
  | guestCall
  | gcCollect
  deriving DecidableEq

/-- The sandbox instance state visible to the bridge: the terminated flag
and bounded error record kept by the Termination Reporter, and the output
accumulation buffer. -/
structure Sandbox where
  terminated : Bool
  errorMsg : String
  output : String
  deriving DecidableEq

/-- Size of the fixed error buffer (LSB_ERROR_SIZE in the sandbox library
headers; the standard value). -/
def LSB_ERROR_SIZE : Nat := 256

/-- Truncation of a string to its first n characters, as snprintf into a
buffer of n + 1 bytes does for ASCII diagnostics. -/
def strTrunc (s : String) (n : Nat) : String := String.mk (s.data.take n)

/-- Test that p is an initial run of s, which is exactly the condition
strncmp(p, s, strlen(p)) == 0 checks. -/
def strStarts (s p : String) : Bool := p.data.isPrefixOf s.data

/-- Modelled from the spec: the Termination Reporter (lsb_terminate in the
sandbox library, outside src/) stores the diagnostic into the bounded error
record, truncating on overflow, and marks the instance terminated. -/
def lsb_terminate (lsb : Sandbox) (err : String) : Sandbox :=
  { lsb with terminated := true,
             errorMsg := strTrunc err (LSB_ERROR_SIZE - 1) }

/-- Modelled from the spec: lsb_get_lua (sandbox library, outside src/)
yields the live interpreter handle; once the instance is terminated it is
inert, so no handle is returned. -/
def lsb_get_lua (lsb : Sandbox) : Option Unit :=
  if lsb.terminated then none else some ()

/-- Behaviour of the guest script for one entry-point invocation, as the
bridge observes it through the interpreter: whether lsb_pcall_setup finds
the entry point, and the outcome of the protected call (a guest runtime
error message, or the list of values the guest function returned). -/
structure GuestCall where
  entryPointDefined : Bool
  result : Except String (List LuaValue)

/-- Truncation of a 64-bit integer to a signed 32-bit value, as performed
by the C cast (int)x on the supported platforms. -/
def int32cast (n : Int) : Int := (n + 2 ^ 31) % 2 ^ 32 - 2 ^ 31

/-- The process_message entry point (lua_sandbox_interface.c).  The guest
function is invoked with zero arguments and one requested result; per the
Lua calling convention the interpreter adjusts the returned values to
exactly one, padding with nil when the guest returned none and discarding
values after the first.  The bridge then requires that single value to be
numeric, truncates it to a C int and hands it to the host as the status.
The third component records the interpreter events, in order. -/
def process_message (lsb : Sandbox) (g : GuestCall) :
    Sandbox × Int × List BridgeEvent :=
  match lsb_get_lua lsb with
  | none => (lsb, 1, [])
  | some _ =>
    if g.entryPointDefined = false then
      (lsb_terminate lsb "process_message() function was not found", 1, [])
    else
      match g.result with
      | Except.error e =>
          (lsb_terminate lsb ("process_message() " ++ e), 1,
           [BridgeEvent.guestCall])
      | Except.ok vs =>
          match vs with
          | LuaValue.num n :: _ => (lsb, int32cast n, [BridgeEvent.guestCall])
          | _ =>
              (lsb_terminate lsb
                "process_message() must return a single numeric value", 1,
               [BridgeEvent.guestCall])

/-- The timer_event entry point (lua_sandbox_interface.c).  The guest
function is invoked with the elapsed nanoseconds and zero requested
results; on success the bridge runs one garbage-collection pass after the
call returns. -/
def timer_event (lsb : Sandbox) (g : GuestCall) (ns : Int) :
    Sandbox × Int × List BridgeEvent :=
  match lsb_get_lua lsb with
  | none => (lsb, 1, [])
  | some _ =>
    if g.entryPointDefined = false then
      (lsb_terminate lsb "timer_event() function was not found", 1, [])
    else
      match g.result with
      | Except.error e =>
          (lsb_terminate lsb ("timer_event() " ++ e), 1,
           [BridgeEvent.guestCall])
      | Except.ok _ =>
          (lsb, 0, [BridgeEvent.guestCall, BridgeEvent.gcCollect])

/-- The luaL_checkstring helper of the Lua auxiliary library: accepts a
string argument, coerces a numeric argument to its decimal text, and raises
a Lua error otherwise. -/
def luaL_checkstring : LuaValue → Except String String
  | LuaValue.str s => Except.ok s
  | LuaValue.num n => Except.ok (toString n)
  | _ => Except.error "string expected"

/-- The luaL_optinteger helper of the Lua auxiliary library: an absent or
nil argument yields the default, a numeric argument yields its integer
value, anything else raises a Lua error. -/
def luaL_optinteger : Option LuaValue → Int → Except String Int
  | none, d => Except.ok d
  | some LuaValue.nil, d => Except.ok d
  | some (LuaValue.num n), _ => Except.ok n
  | some _, _ => Except.error "number expected"

/-- Tagged value crossing the boundary from a Go host collaborator
(go_lua_read_config / go_lua_read_message): the integer kind code r0
together with the pointed-to payload r1 and, for byte buffers, the
reported length r2.  notFound models a NULL r1.  bytes (kind 0) is a
transient buffer freed by the bridge after copying, bytesRef (kind 1) is a
host-owned stable buffer, int64 (kind 2) points to a GoInt64, float
(kind 3) to a GoFloat64 (carried here at its integer points), boolean
(kind 4) to a GoInt8; any other kind code is unknown. -/
inductive GoTagged
  | notFound
  | bytes (s : String) (len : Nat)
  | bytesRef (s : String) (len : Nat)
  | int64 (v : Int)
  | float (v : Int)
  | boolean (v : Int)
  | unknown (tag : Int)
  deriving DecidableEq

/-- Marshaling switch of read_config (lua_sandbox_interface.c): kind 0
pushes the bytes copied by the reported length, kind 3 a number, kind 4 a
boolean; NULL and every other kind (including 1 and 2, unsupported here)
push nil. -/
def push_config : GoTagged → LuaPush
  | GoTagged.notFound => LuaPush.pushnil
  | GoTagged.bytes s len => LuaPush.pushlstring (strTrunc s len)
  | GoTagged.float v => LuaPush.pushnumber v
  | GoTagged.boolean v => LuaPush.pushboolean (v != 0)
  | _ => LuaPush.pushnil

/-- The read_config callback (lua_sandbox_interface.c).  The host
configuration collaborator is an oracle from names to tagged values.  The
result is the Lua push performed (or the Lua error raised), together with
the list of names actually looked up on the host. -/
def read_config (host : String → GoTagged) (args : List LuaValue) :
    Except String LuaPush × List String :=
  if args.length ≠ 1 then
    (Except.error "read_config() must have a single argument", [])
  else
    match luaL_checkstring (args.getD 0 LuaValue.nil) with
    | Except.error e => (Except.error e, [])
    | Except.ok name => (Except.ok (push_config (host name)), [name])

/-- Marshaling switch of read_message (lua_sandbox_interface.c): kinds 0
and 1 push the bytes by the reported length (copying and freeing only for
kind 0); kind 2 reads a GoInt32 when the field name passes the
strncmp comparisons with "Pid" (3 bytes) or "Severity" (8 bytes), hence
for any field name beginning with those bytes, and a GoInt64 otherwise;
kind 3 pushes a number, kind 4 a boolean; NULL and unknown kinds push
nil. -/
def push_message (field : String) : GoTagged → LuaPush
  | GoTagged.notFound => LuaPush.pushnil
  | GoTagged.bytes s len => LuaPush.pushlstring (strTrunc s len)
  | GoTagged.bytesRef s len => LuaPush.pushlstring (strTrunc s len)
  | GoTagged.int64 v =>
      if strStarts field "Pid" || strStarts field "Severity" then
        LuaPush.pushinteger32 (int32cast v)
      else
        LuaPush.pushnumber v
  | GoTagged.float v => LuaPush.pushnumber v
  | GoTagged.boolean v => LuaPush.pushboolean (v != 0)
  | GoTagged.unknown _ => LuaPush.pushnil

/-- The read_message callback (lua_sandbox_interface.c).  Arguments: the
field name (required string), then optional field index and array index,
both defaulting to 0 and checked non-negative before the host message
collaborator is consulted.  The second component logs every
(field, field index, array index) triple actually delegated to the
host. -/
def read_message (host : String → Int → Int → GoTagged)
    (args : List LuaValue) :
    Except String LuaPush × List (String × Int × Int) :=
  if args.length < 1 ∨ args.length > 3 then
    (Except.error "read_message() incorrect number of arguments", [])
  else
    match luaL_checkstring (args.getD 0 LuaValue.nil) with
    | Except.error e => (Except.error e, [])
    | Except.ok field =>
      match luaL_optinteger args[1]? 0 with
      | Except.error e => (Except.error e, [])
      | Except.ok fi =>
        if fi < 0 then (Except.error "field index must be >= 0", [])
        else
          match luaL_optinteger args[2]? 0 with
          | Except.error e => (Except.error e, [])
          | Except.ok ai =>
            if ai < 0 then (Except.error "array index must be >= 0", [])
            else
              (Except.ok (push_message field (host field fi ai)),
               [(field, fi, ai)])

/-- One delegation to the host injection collaborator
(go_lua_inject_message): the payload bytes handed over with their type tag
and message name. -/
structure InjectCall where
  payload : String
  type : String
  name : String
  deriving DecidableEq

/-- Resolution of the first inject_message argument
(lua_sandbox_interface.c, the switch on lua_type): a string sets the type
tag (the empty string reverting to the default "txt"); a table is encoded
into the output buffer by lsb_output_protobuf (oracle pe: the encoded
bytes, or the encoder failure text obtained through lsb_get_error), with
type tag set to the empty string; a userdata is serialized into the output
buffer by lsb_output_userdata (oracle us: the produced type tag and bytes,
or none when the value is not serializable, raising the circular_buffer
type error); any other type raises a Lua type error. -/
def inject_arg1 (lsb : Sandbox) (a1 : LuaValue)
    (pe : Except String String) (us : Option (String × String)) :
    Sandbox × Except String String :=
  match a1 with
  | LuaValue.str s =>
      (lsb, Except.ok (if s = "" then "txt" else s))
  | LuaValue.table _ =>
      match pe with
      | Except.error e =>
          (lsb, Except.error ("inject_message() cound not encode protobuf - " ++ e))
      | Except.ok enc =>
          ({ lsb with output := lsb.output ++ enc }, Except.ok "")
  | LuaValue.userdata _ =>
      match us with
      | none => (lsb, Except.error "circular_buffer expected")
      | some (t, enc) =>
          ({ lsb with output := lsb.output ++ enc }, Except.ok t)
  | _ => (lsb, Except.error "string, table, or circular_buffer expected")

/-- Tail of inject_message (lua_sandbox_interface.c): lsb_get_output reads
the staged output and resets the buffer; when the length is non-zero the
payload is delegated to the host injection collaborator with the resolved
type tag and name (the middle component records that delegation), and a
non-zero host status raises the MaxMsgLoops Lua error.  An ok unit result
means the callback returned zero values to the guest. -/
def injectFinish (lsb : Sandbox) (type name : String) (hostInject : Int) :
    Sandbox × Option InjectCall × Except String Unit :=
  let out := lsb.output
  let lsb2 := { lsb with output := "" }
  if out.length ≠ 0 then
    if hostInject ≠ 0 then
      (lsb2, some ⟨out, type, name⟩,
       Except.error "inject_message() exceeded MaxMsgLoops")
    else
      (lsb2, some ⟨out, type, name⟩, Except.ok ())
  else
    (lsb2, none, Except.ok ())

/-- The inject_message callback (lua_sandbox_interface.c).  Zero arguments
keep the defaults (type "txt", name ""); with two arguments the name is
checked as a string before the first argument is resolved; more than two
arguments raise a Lua error.  hostInject is the status the host injection
collaborator would return if delegated to. -/
def inject_message (lsb : Sandbox) (args : List LuaValue)
    (pe : Except String String) (us : Option (String × String))
    (hostInject : Int) :
    Sandbox × Option InjectCall × Except String Unit :=
  match args with
  | [] => injectFinish lsb "txt" "" hostInject
  | [a1] =>
      match inject_arg1 lsb a1 pe us with
      | (l, Except.error e) => (l, none, Except.error e)
      | (l, Except.ok t) => injectFinish l t "" hostInject
  | [a1, a2] =>
      match luaL_checkstring a2 with
      | Except.error e => (lsb, none, Except.error e)
      | Except.ok nm =>
          match inject_arg1 lsb a1 pe us with
          | (l, Except.error e) => (l, none, Except.error e)
          | (l, Except.ok t) => injectFinish l t nm hostInject
  | _ =>
      (lsb, none,
       Except.error "inject_message() takes a maximum of 2 arguments")

/-- A sequence of zero-argument inject_message calls within one processing
cycle: before each call the guest has staged the given payload in the
output buffer, and the host injection collaborator answers the given
status for that delegation.  Yields the per-call results in order. -/
def injectSeq (lsb : Sandbox) :
    List (String × Int) → List (Sandbox × Option InjectCall × Except String Unit)
  | [] => []
  | (p, r) :: rest =>
      let res := inject_message { lsb with output := p } []
        (Except.error "") none r
      res :: injectSeq res.1 rest


/-- Helper: int32cast is the identity on values representable in a signed
32-bit int. -/
theorem int32cast_eq_self (n : Int) (h1 : -(2 ^ 31) ≤ n) (h2 : n < 2 ^ 31) :
    int32cast n = n := by
  unfold int32cast
  rw [Int.emod_eq_of_lt (by omega) (by omega)]
  omega

/-- Helper: a terminated sandbox rejects process_message without invoking
the guest. -/
theorem process_message_terminated (lsb : Sandbox) (g : GuestCall)
    (h : lsb.terminated = true) : process_message lsb g = (lsb, 1, []) := by
  simp [process_message, lsb_get_lua, h]

/-- Helper: a terminated sandbox rejects timer_event without invoking the
guest. -/
theorem timer_event_terminated (lsb : Sandbox) (g : GuestCall) (ns : Int)
    (h : lsb.terminated = true) : timer_event lsb g ns = (lsb, 1, []) := by
  simp [timer_event, lsb_get_lua, h]

/-- C1 counterexample: the guest returning two values, the first numeric,
is a wrong-arity return, yet process_message succeeds with the first value
as its status instead of failing with the ContractViolation: the protected
call is made with one requested result, so the interpreter discards the
extra values and the bridge cannot observe the arity. -/
theorem C1_counterexample :
    (process_message ⟨false, "", ""⟩
      ⟨true, Except.ok [LuaValue.num 5, LuaValue.num 6]⟩).2.1 = 5
    ∧ (process_message ⟨false, "", ""⟩
      ⟨true, Except.ok [LuaValue.num 5, LuaValue.num 6]⟩).1.terminated = false :=
  ⟨rfl, rfl⟩

/-- C1 (amended): on a live sandbox whose guest defines process_message and
whose protected call succeeds, the bridge inspects only the first returned
value (nil when the guest returned nothing, extras discarded): a numeric
first value n yields status n (unchanged whenever n fits in a signed 32-bit
int, so 0 is success and any non-zero in-range status propagates as is); a
non-numeric first value terminates the sandbox with the diagnostic
"process_message() must return a single numeric value" and returns 1. -/
theorem C1_first_value_contract (lsb : Sandbox) (g : GuestCall)
    (vs : List LuaValue)
    (hterm : lsb.terminated = false)
    (hep : g.entryPointDefined = true)
    (hres : g.result = Except.ok vs) :
    (∀ (n : Int) (rest : List LuaValue), vs = LuaValue.num n :: rest →
      process_message lsb g = (lsb, int32cast n, [BridgeEvent.guestCall])
      ∧ (-(2 ^ 31) ≤ n → n < 2 ^ 31 → (process_message lsb g).2.1 = n))
    ∧ ((∀ (n : Int) (rest : List LuaValue), vs ≠ LuaValue.num n :: rest) →
      process_message lsb g =
        (lsb_terminate lsb "process_message() must return a single numeric value",
         1, [BridgeEvent.guestCall])
      ∧ (process_message lsb g).1.terminated = true
      ∧ (process_message lsb g).1.errorMsg =
          "process_message() must return a single numeric value") := by
  rcases g with ⟨epd, res⟩
  simp only at hep hres
  subst hep
  subst hres
  constructor
  · rintro n rest rfl
    have hmain : process_message lsb ⟨true, Except.ok (LuaValue.num n :: rest)⟩ =
        (lsb, int32cast n, [BridgeEvent.guestCall]) := by
      simp [process_message, lsb_get_lua, hterm]
    refine ⟨hmain, fun h1 h2 => ?_⟩
    rw [hmain]
    exact int32cast_eq_self n h1 h2
  · intro hnn
    have hmain : process_message lsb ⟨true, Except.ok vs⟩ =
        (lsb_terminate lsb "process_message() must return a single numeric value",
         1, [BridgeEvent.guestCall]) := by
      rcases vs with _ | ⟨v, rest⟩
      · simp [process_message, lsb_get_lua, hterm]
      · cases v <;> first
          | exact absurd rfl (hnn _ rest)
          | simp [process_message, lsb_get_lua, hterm]
    refine ⟨hmain, ?_, ?_⟩
    · rw [hmain]; rfl
    · rw [hmain]; rfl

/-- C1 witness. -/
theorem C1_first_value_contract_witness :
    process_message ⟨false, "", ""⟩ ⟨true, Except.ok [LuaValue.num 7]⟩ =
      (⟨false, "", ""⟩, int32cast 7, [BridgeEvent.guestCall]) :=
  ((C1_first_value_contract ⟨false, "", ""⟩ ⟨true, Except.ok [LuaValue.num 7]⟩
      [LuaValue.num 7] rfl rfl rfl).1 7 [] rfl).1

/-- C2: on a live sandbox whose guest script does not define the
process_message entry point, process_message stores the diagnostic
"process_message() function was not found", marks the instance terminated
and returns 1 to the host; every later entry-point call on the terminated
instance returns 1 with no guest invocation and no state change. -/
theorem C2_missing_entry_point (lsb : Sandbox) (g : GuestCall)
    (hterm : lsb.terminated = false)
    (hmiss : g.entryPointDefined = false) :
    (process_message lsb g).1.terminated = true
    ∧ (process_message lsb g).1.errorMsg =
        "process_message() function was not found"
    ∧ (process_message lsb g).2.1 = 1
    ∧ (process_message lsb g).2.2 = []
    ∧ (∀ g2 : GuestCall,
        process_message (process_message lsb g).1 g2 =
          ((process_message lsb g).1, 1, []))
    ∧ (∀ (g2 : GuestCall) (ns : Int),
        timer_event (process_message lsb g).1 g2 ns =
          ((process_message lsb g).1, 1, [])) := by
  have hmain : process_message lsb g =
      (lsb_terminate lsb "process_message() function was not found", 1, []) := by
    simp [process_message, lsb_get_lua, hterm, hmiss]
  rw [hmain]
  refine ⟨rfl, rfl, rfl, rfl, fun g2 => ?_, fun g2 ns => ?_⟩
  · exact process_message_terminated _ g2 rfl
  · exact timer_event_terminated _ g2 ns rfl

/-- C2 witness. -/
theorem C2_missing_entry_point_witness :
    (process_message ⟨false, "", ""⟩ ⟨false, Except.ok []⟩).1.terminated = true
    ∧ process_message (process_message ⟨false, "", ""⟩ ⟨false, Except.ok []⟩).1
        ⟨true, Except.ok [LuaValue.num 0]⟩ =
        ((process_message ⟨false, "", ""⟩ ⟨false, Except.ok []⟩).1, 1, []) :=
  ⟨(C2_missing_entry_point ⟨false, "", ""⟩ ⟨false, Except.ok []⟩ rfl rfl).1,
   (C2_missing_entry_point ⟨false, "", ""⟩ ⟨false, Except.ok []⟩ rfl rfl).2.2.2.2.1
     ⟨true, Except.ok [LuaValue.num 0]⟩⟩

/-- C4: when timer_event reports success its interpreter event trace is
exactly the guest invocation followed by one garbage-collection pass; when
it reports failure no garbage-collection pass occurs; and process_message
never performs a garbage-collection pass. -/
theorem C4_gc_after_success (lsb : Sandbox) (g : GuestCall) (ns : Int) :
    ((timer_event lsb g ns).2.1 = 0 →
      (timer_event lsb g ns).2.2 = [BridgeEvent.guestCall, BridgeEvent.gcCollect])
    ∧ ((timer_event lsb g ns).2.1 ≠ 0 →
      BridgeEvent.gcCollect ∉ (timer_event lsb g ns).2.2)
    ∧ BridgeEvent.gcCollect ∉ (process_message lsb g).2.2 := by
  rcases g with ⟨epd, res⟩
  refine ⟨?_, ?_, ?_⟩ <;>
    cases h : lsb.terminated <;> cases epd <;> rcases res with e | vs <;>
      (try rcases vs with _ | ⟨v, rest⟩) <;> (try cases v) <;>
      simp [timer_event, process_message, lsb_get_lua, h]

/-- C4 witness. -/
theorem C4_gc_after_success_witness :
    (timer_event ⟨false, "", ""⟩ ⟨true, Except.ok []⟩ 5).2.2 =
      [BridgeEvent.guestCall, BridgeEvent.gcCollect]
    ∧ BridgeEvent.gcCollect ∉
        (timer_event ⟨true, "", ""⟩ ⟨true, Except.ok []⟩ 5).2.2 :=
  ⟨(C4_gc_after_success ⟨false, "", ""⟩ ⟨true, Except.ok []⟩ 5).1 rfl,
   (C4_gc_after_success ⟨true, "", ""⟩ ⟨true, Except.ok []⟩ 5).2.1 (by decide)⟩

/-- Helper: every delegation read_message logs to the host carries
non-negative indices. -/
theorem read_message_log_nonneg (host : String → Int → Int → GoTagged)
    (args : List LuaValue) :
    ∀ p ∈ (read_message host args).2, 0 ≤ p.2.1 ∧ 0 ≤ p.2.2 := by
  intro p hp
  unfold read_message at hp
  repeat' split at hp
  all_goals simp_all

/-- Helper: a negative number supplied as the second argument keeps
read_message from consulting the host. -/
theorem read_message_neg_fi (host : String → Int → Int → GoTagged)
    (args : List LuaValue) (fi : Int)
    (h1 : args[1]? = some (LuaValue.num fi)) (h2 : fi < 0) :
    (read_message host args).2 = [] := by
  unfold read_message
  repeat' split
  all_goals simp_all [luaL_optinteger]
  all_goals omega

/-- Helper: a negative number supplied as the third argument keeps
read_message from consulting the host. -/
theorem read_message_neg_ai (host : String → Int → Int → GoTagged)
    (args : List LuaValue) (ai : Int)
    (h1 : args[2]? = some (LuaValue.num ai)) (h2 : ai < 0) :
    (read_message host args).2 = [] := by
  unfold read_message
  repeat' split
  all_goals simp_all [luaL_optinteger]
  all_goals omega

/-- C3: read_message rejects a negative field index or array index before
any host lookup: every lookup delegated to the host carries non-negative
indices, a negative numeric value in either index position always leaves
the host call log empty, and in the well-formed three-argument form the
call fails with the corresponding argument range error and no host
lookup. -/
theorem C3_negative_index_rejected (host : String → Int → Int → GoTagged)
    (args : List LuaValue) :
    (∀ p ∈ (read_message host args).2, 0 ≤ p.2.1 ∧ 0 ≤ p.2.2)
    ∧ (∀ fi : Int, args[1]? = some (LuaValue.num fi) → fi < 0 →
        (read_message host args).2 = [])
    ∧ (∀ ai : Int, args[2]? = some (LuaValue.num ai) → ai < 0 →
        (read_message host args).2 = [])
    ∧ (∀ (s : String) (fi ai : Int), fi < 0 →
        read_message host [LuaValue.str s, LuaValue.num fi, LuaValue.num ai] =
          (Except.error "field index must be >= 0", []))
    ∧ (∀ (s : String) (fi ai : Int), 0 ≤ fi → ai < 0 →
        read_message host [LuaValue.str s, LuaValue.num fi, LuaValue.num ai] =
          (Except.error "array index must be >= 0", [])) := by
  refine ⟨read_message_log_nonneg host args,
          fun fi h1 h2 => read_message_neg_fi host args fi h1 h2,
          fun ai h1 h2 => read_message_neg_ai host args ai h1 h2,
          fun s fi ai h => ?_, fun s fi ai h1 h2 => ?_⟩
  · simp [read_message, luaL_checkstring, luaL_optinteger, h]
  · simp [read_message, luaL_checkstring, luaL_optinteger,
          (show ¬ fi < 0 by omega), h2]

/-- C3 witness. -/
theorem C3_negative_index_rejected_witness :
    read_message (fun _ _ _ => GoTagged.notFound)
      [LuaValue.str "Type", LuaValue.num (-1), LuaValue.num 0] =
      (Except.error "field index must be >= 0", []) :=
  (C3_negative_index_rejected (fun _ _ _ => GoTagged.notFound)
      []).2.2.2.1 "Type" (-1) 0 (by decide)

/-- C5 counterexample: the field name "Pidx" is neither "Pid" nor
"Severity", yet an integer-tagged host result for it is pushed through the
32-bit path (strncmp with the literal only compares the first bytes): the
value 2 ^ 32 + 7 is pushed as the 32-bit integer 7, not as the 64-bit
value the claim requires for field names other than the two special
ones. -/
theorem C5_counterexample :
    (read_message (fun _ _ _ => GoTagged.int64 (2 ^ 32 + 7))
      [LuaValue.str "Pidx"]).1 = Except.ok (LuaPush.pushinteger32 7)
    ∧ (read_message (fun _ _ _ => GoTagged.int64 (2 ^ 32 + 7))
      [LuaValue.str "Pidx"]).1 ≠ Except.ok (LuaPush.pushnumber (2 ^ 32 + 7)) :=
  ⟨rfl, by decide⟩

/-- C5 (amended): an integer-tagged host result is pushed as a 32-bit
integer exactly when the requested field name begins with "Pid" or with
"Severity" (the strncmp comparisons check only those leading bytes), and
as a 64-bit value for every other field name. -/
theorem C5_int_width (host : String → Int → Int → GoTagged)
    (field : String) (v fi ai : Int)
    (hfi : 0 ≤ fi) (hai : 0 ≤ ai)
    (hv : host field fi ai = GoTagged.int64 v) :
    (read_message host
        [LuaValue.str field, LuaValue.num fi, LuaValue.num ai]).1 =
      Except.ok
        (if strStarts field "Pid" || strStarts field "Severity" then
          LuaPush.pushinteger32 (int32cast v)
        else LuaPush.pushnumber v) := by
  simp [read_message, luaL_checkstring, luaL_optinteger,
        (show ¬ fi < 0 by omega), (show ¬ ai < 0 by omega), hv, push_message]

/-- C5 witness. -/
theorem C5_int_width_witness :
    (read_message (fun _ _ _ => GoTagged.int64 (2 ^ 32 + 5))
        [LuaValue.str "Pid", LuaValue.num 0, LuaValue.num 0]).1 =
      Except.ok
        (if strStarts "Pid" "Pid" || strStarts "Pid" "Severity" then
          LuaPush.pushinteger32 (int32cast (2 ^ 32 + 5))
        else LuaPush.pushnumber (2 ^ 32 + 5)) :=
  C5_int_width (fun _ _ _ => GoTagged.int64 (2 ^ 32 + 5)) "Pid"
    (2 ^ 32 + 5) 0 0 (by decide) (by decide) rfl

/-- Helper: a string of length zero is the empty string. -/
theorem string_eq_empty_of_length {s : String} (h : s.length = 0) : s = "" := by
  rcases s with ⟨l⟩
  cases l
  · rfl
  · simp [String.length] at h

/-- Helper: a non-empty string fails the len == 0 test of the C code. -/
theorem string_length_ne_zero {s : String} (h : s ≠ "") : s.length ≠ 0 :=
  fun h0 => h (string_eq_empty_of_length h0)

/-- Helper: truncating a string at its own length is the identity. -/
theorem strTrunc_self (s : String) : strTrunc s s.length = s := by
  rcases s with ⟨l⟩
  simp [strTrunc, String.length]

/-- C6 counterexample: an inject_message call made while the output buffer
is empty, whose single argument is a table that encodes successfully to a
non-empty buffer, does delegate to the host injection collaborator
(contradicting the claim that no call with an initially empty buffer
delegates). -/
theorem C6_counterexample :
    (inject_message ⟨false, "", ""⟩ [LuaValue.table 0]
        (Except.ok "enc") none 0).2.1 = some ⟨"enc", "", ""⟩ := rfl

/-- C6 (amended): an inject_message call made while the output buffer is
empty whose first argument, if any, is a string stages no output and never
delegates to the host injection collaborator: with zero arguments, with
one string argument, or with two arguments whose second argument passes
the name check (a string, or a number coerced to its text), the call
returns zero values to the guest without error; with two arguments whose
second argument fails the name check, the call raises that argument error,
still without delegating.  A table or userdata first argument can stage
output during the call and then delegate. -/
theorem C6_empty_buffer_no_delegation (lsb : Sandbox)
    (pe : Except String String) (us : Option (String × String)) (hi : Int)
    (h : lsb.output = "") :
    inject_message lsb [] pe us hi = (lsb, none, Except.ok ())
    ∧ (∀ s : String, inject_message lsb [LuaValue.str s] pe us hi =
        (lsb, none, Except.ok ()))
    ∧ (∀ (s : String) (a2 : LuaValue) (nm : String),
        luaL_checkstring a2 = Except.ok nm →
        inject_message lsb [LuaValue.str s, a2] pe us hi =
          (lsb, none, Except.ok ()))
    ∧ (∀ (s : String) (a2 : LuaValue) (e : String),
        luaL_checkstring a2 = Except.error e →
        inject_message lsb [LuaValue.str s, a2] pe us hi =
          (lsb, none, Except.error e)) := by
  rcases lsb with ⟨t, em, o⟩
  simp only at h
  subst h
  refine ⟨?_, fun s => ?_, fun s a2 nm hck => ?_, fun s a2 e hck => ?_⟩
  · simp [inject_message, injectFinish]
  · simp [inject_message, inject_arg1, injectFinish]
  · simp [inject_message, inject_arg1, injectFinish, hck]
  · simp [inject_message, hck]

/-- C6 witness. -/
theorem C6_empty_buffer_no_delegation_witness :
    inject_message ⟨false, "", ""⟩ [] (Except.error "") none 0 =
      (⟨false, "", ""⟩, none, Except.ok ())
    ∧ inject_message ⟨false, "", ""⟩
        [LuaValue.str "csv", LuaValue.str "name1"] (Except.error "") none 0 =
        (⟨false, "", ""⟩, none, Except.ok ())
    ∧ inject_message ⟨false, "", ""⟩ [LuaValue.str "csv", LuaValue.nil]
        (Except.error "") none 0 =
        (⟨false, "", ""⟩, none, Except.error "string expected") :=
  ⟨(C6_empty_buffer_no_delegation ⟨false, "", ""⟩ (Except.error "") none 0
      rfl).1,
   (C6_empty_buffer_no_delegation ⟨false, "", ""⟩ (Except.error "") none 0
      rfl).2.2.1 "csv" (LuaValue.str "name1") "name1" rfl,
   (C6_empty_buffer_no_delegation ⟨false, "", ""⟩ (Except.error "") none 0
      rfl).2.2.2 "csv" LuaValue.nil "string expected" rfl⟩

/-- Helper: with a non-empty staged output buffer, injectFinish always
delegates that buffer with the resolved type tag and name, whatever status
the host then reports. -/
theorem injectFinish_delegation (lsb : Sandbox) (t nm : String) (hi : Int)
    (h : lsb.output ≠ "") :
    (injectFinish lsb t nm hi).2.1 = some ⟨lsb.output, t, nm⟩ := by
  have hl : lsb.output.length ≠ 0 := string_length_ne_zero h
  simp only [injectFinish, if_pos hl]
  split <;> rfl

/-- C7: with a non-empty output buffer, inject_message("csv", "name1")
delegates the buffer to the host with type tag "csv" and name "name1";
inject_message("") delegates with the default type tag "txt" (the empty
string reverts to the default) and empty name; and inject_message with no
arguments delegates with type "txt" and empty name. -/
theorem C7_type_and_name (lsb : Sandbox) (pe : Except String String)
    (us : Option (String × String)) (hi : Int) (h : lsb.output ≠ "") :
    (inject_message lsb [LuaValue.str "csv", LuaValue.str "name1"]
        pe us hi).2.1 = some ⟨lsb.output, "csv", "name1"⟩
    ∧ (inject_message lsb [LuaValue.str ""] pe us hi).2.1 =
        some ⟨lsb.output, "txt", ""⟩
    ∧ (inject_message lsb [] pe us hi).2.1 =
        some ⟨lsb.output, "txt", ""⟩ := by
  have e1 : inject_message lsb [LuaValue.str "csv", LuaValue.str "name1"]
      pe us hi = injectFinish lsb "csv" "name1" hi := rfl
  have e2 : inject_message lsb [LuaValue.str ""] pe us hi =
      injectFinish lsb "txt" "" hi := rfl
  have e3 : inject_message lsb [] pe us hi =
      injectFinish lsb "txt" "" hi := rfl
  rw [e1, e2, e3]
  exact ⟨injectFinish_delegation lsb "csv" "name1" hi h,
         injectFinish_delegation lsb "txt" "" hi h,
         injectFinish_delegation lsb "txt" "" hi h⟩

/-- C7 witness. -/
theorem C7_type_and_name_witness :
    (inject_message ⟨false, "", "payload"⟩
        [LuaValue.str "csv", LuaValue.str "name1"]
        (Except.error "") none 0).2.1 = some ⟨"payload", "csv", "name1"⟩ :=
  (C7_type_and_name ⟨false, "", "payload"⟩ (Except.error "") none 0
      (by decide)).1

/-- C10: when the first argument is a table and the structured encoding
succeeds with a non-empty resulting output buffer, the delegation to the
host carries the empty string as its type tag, which is not the default
tag "txt". -/
theorem C10_table_empty_type_tag (lsb : Sandbox) (id : Nat) (enc : String)
    (us : Option (String × String)) (hi : Int)
    (h : lsb.output ++ enc ≠ "") :
    (inject_message lsb [LuaValue.table id] (Except.ok enc) us hi).2.1 =
      some ⟨lsb.output ++ enc, "", ""⟩
    ∧ ("" : String) ≠ "txt" := by
  constructor
  · have e1 : inject_message lsb [LuaValue.table id] (Except.ok enc) us hi =
        injectFinish { lsb with output := lsb.output ++ enc } "" "" hi := rfl
    rw [e1]
    exact injectFinish_delegation { lsb with output := lsb.output ++ enc }
      "" "" hi h
  · decide

/-- C10 witness. -/
theorem C10_table_empty_type_tag_witness :
    (inject_message ⟨false, "", ""⟩ [LuaValue.table 3]
        (Except.ok "bytes") none 0).2.1 = some ⟨"bytes", "", ""⟩ :=
  (C10_table_empty_type_tag ⟨false, "", ""⟩ 3 "bytes" none 0 (by decide)).1

/-- Helper: the results of a sequence of zero-argument inject_message
calls, each made with its payload staged in the output buffer, depend only
on the per-call payload and host status: the sandbox ends each call with
its buffer cleared and its other fields untouched, the delegation happens
exactly when the payload is non-empty, and the MaxMsgLoops error is
raised exactly when the delegation happens and the host reports a
non-zero status. -/
theorem injectSeq_eq_map (lsb : Sandbox) (pairs : List (String × Int)) :
    injectSeq lsb pairs = pairs.map (fun pr =>
      ({ lsb with output := "" },
       if pr.1 = "" then none else some ⟨pr.1, "txt", ""⟩,
       if pr.1 ≠ "" ∧ pr.2 ≠ 0 then
         Except.error "inject_message() exceeded MaxMsgLoops"
       else Except.ok ())) := by
  induction pairs generalizing lsb with
  | nil => rfl
  | cons pr rest ih =>
      rcases pr with ⟨p, r⟩
      have hstep : inject_message { lsb with output := p } []
          (Except.error "") none r =
          ({ lsb with output := "" },
           if p = "" then none else some ⟨p, "txt", ""⟩,
           if p ≠ "" ∧ r ≠ 0 then
             Except.error "inject_message() exceeded MaxMsgLoops"
           else Except.ok ()) := by
        by_cases hp : p = ""
        · subst hp
          simp [inject_message, injectFinish]
        · have hl : p.length ≠ 0 := string_length_ne_zero hp
          by_cases hr : r = 0
          · subst hr
            simp [inject_message, injectFinish, hl, hp]
          · simp [inject_message, injectFinish, hl, hp, hr]
      simp only [injectSeq, hstep, List.map]
      rw [ih]

/-- C8: in a sequence of inject_message calls within one processing cycle,
each with a non-empty staged payload, where the host injection
collaborator accepts the first N - 1 delegations and reports a non-zero
(loop limit exceeded) status on the Nth, the first N - 1 calls return to
the guest without error, the Nth call raises the guest-level error
"inject_message() exceeded MaxMsgLoops", and no call in the sequence
changes the terminated flag of the sandbox instance. -/
theorem C8_loop_limit (lsb : Sandbox) (pairs : List (String × Int)) (N : Nat)
    (hN : pairs.length = N) (hpos : 0 < N)
    (hp : ∀ pr ∈ pairs, pr.1 ≠ "")
    (hr : ∀ k, k < N - 1 → (pairs.getD k ("", 0)).2 = 0)
    (hlast : (pairs.getD (N - 1) ("", 0)).2 ≠ 0) :
    (∀ k, k < N - 1 →
      ((injectSeq lsb pairs).getD k (lsb, none, Except.ok ())).2.2 =
        Except.ok ())
    ∧ ((injectSeq lsb pairs).getD (N - 1) (lsb, none, Except.ok ())).2.2 =
        Except.error "inject_message() exceeded MaxMsgLoops"
    ∧ (∀ k,
        ((injectSeq lsb pairs).getD k (lsb, none, Except.ok ())).1.terminated =
          lsb.terminated) := by
  rw [injectSeq_eq_map]
  refine ⟨fun k hk => ?_, ?_, fun k => ?_⟩
  · have hk2 : k < pairs.length := by omega
    have hk3 : k < (pairs.map (fun pr =>
        ({ lsb with output := "" },
         if pr.1 = "" then none else some (⟨pr.1, "txt", ""⟩ : InjectCall),
         if pr.1 ≠ "" ∧ pr.2 ≠ 0 then
           Except.error "inject_message() exceeded MaxMsgLoops"
         else Except.ok ()))).length := by
      simpa using hk2
    have hr2 : pairs[k].2 = 0 := by
      have := hr k hk
      rwa [List.getD_eq_getElem _ _ hk2] at this
    rw [List.getD_eq_getElem _ _ hk3, List.getElem_map]
    simp [hr2]
  · have hk2 : N - 1 < pairs.length := by omega
    have hk3 : N - 1 < (pairs.map (fun pr =>
        ({ lsb with output := "" },
         if pr.1 = "" then none else some (⟨pr.1, "txt", ""⟩ : InjectCall),
         if pr.1 ≠ "" ∧ pr.2 ≠ 0 then
           Except.error "inject_message() exceeded MaxMsgLoops"
         else Except.ok ()))).length := by
      simpa using hk2
    have hr2 : pairs[N - 1].2 ≠ 0 := by
      rwa [List.getD_eq_getElem _ _ hk2] at hlast
    have hp2 : pairs[N - 1].1 ≠ "" :=
      hp _ (List.getElem_mem hk2)
    rw [List.getD_eq_getElem _ _ hk3, List.getElem_map]
    simp [hr2, hp2]
  · by_cases hk2 : k < pairs.length
    · have hk3 : k < (pairs.map (fun pr =>
          ({ lsb with output := "" },
           if pr.1 = "" then none else some (⟨pr.1, "txt", ""⟩ : InjectCall),
           if pr.1 ≠ "" ∧ pr.2 ≠ 0 then
             Except.error "inject_message() exceeded MaxMsgLoops"
           else Except.ok ()))).length := by
        simpa using hk2
      rw [List.getD_eq_getElem _ _ hk3, List.getElem_map]
    · have hk3 : ¬ k < (pairs.map (fun pr =>
          ({ lsb with output := "" },
           if pr.1 = "" then none else some (⟨pr.1, "txt", ""⟩ : InjectCall),
           if pr.1 ≠ "" ∧ pr.2 ≠ 0 then
             Except.error "inject_message() exceeded MaxMsgLoops"
           else Except.ok ()))).length := by
        simpa using hk2
      rw [List.getD_eq_default _ _ (by omega)]

/-- C8 witness. -/
theorem C8_loop_limit_witness :
    ((injectSeq ⟨false, "", ""⟩ [("p", 0), ("q", 1)]).getD 0
        (⟨false, "", ""⟩, none, Except.ok ())).2.2 = Except.ok ()
    ∧ ((injectSeq ⟨false, "", ""⟩ [("p", 0), ("q", 1)]).getD 1
        (⟨false, "", ""⟩, none, Except.ok ())).2.2 =
        Except.error "inject_message() exceeded MaxMsgLoops" :=
  ⟨(C8_loop_limit ⟨false, "", ""⟩ [("p", 0), ("q", 1)] 2 rfl (by decide)
      (by decide) (by decide) (by decide)).1 0 (by decide),
   (C8_loop_limit ⟨false, "", ""⟩ [("p", 0), ("q", 1)] 2 rfl (by decide)
      (by decide) (by decide) (by decide)).2.1⟩

/-- C9: read_config with one string argument maps a host "not found" to a
nil push; a string-kind host value is pushed as the bytes copied by the
reported length (so bytes "hello" of length 5 arrive as the guest string
"hello"); a boolean-kind host value 1 is pushed as the guest boolean true;
the kinds read_config does not support (the reference-string and integer
kinds of the message path) and unknown kind codes are pushed as nil; and
an argument count other than one raises the arity error without any host
lookup. -/
theorem C9_read_config (host : String → GoTagged) (name : String)
    (args : List LuaValue) :
    (host name = GoTagged.notFound →
      read_config host [LuaValue.str name] =
        (Except.ok LuaPush.pushnil, [name]))
    ∧ (∀ b : String, host name = GoTagged.bytes b b.length →
      read_config host [LuaValue.str name] =
        (Except.ok (LuaPush.pushlstring b), [name]))
    ∧ (host name = GoTagged.boolean 1 →
      read_config host [LuaValue.str name] =
        (Except.ok (LuaPush.pushboolean true), [name]))
    ∧ (∀ t : Int, host name = GoTagged.unknown t →
      read_config host [LuaValue.str name] =
        (Except.ok LuaPush.pushnil, [name]))
    ∧ (∀ (b : String) (len : Nat), host name = GoTagged.bytesRef b len →
      read_config host [LuaValue.str name] =
        (Except.ok LuaPush.pushnil, [name]))
    ∧ (∀ v : Int, host name = GoTagged.int64 v →
      read_config host [LuaValue.str name] =
        (Except.ok LuaPush.pushnil, [name]))
    ∧ (args.length ≠ 1 →
      read_config host args =
        (Except.error "read_config() must have a single argument", [])) := by
  refine ⟨fun h => ?_, fun b h => ?_, fun h => ?_, fun t h => ?_,
          fun b len h => ?_, fun v h => ?_, fun h => ?_⟩ <;>
    simp [read_config, luaL_checkstring, push_config, h, strTrunc_self]

/-- C9 witness. -/
theorem C9_read_config_witness :
    read_config (fun _ => GoTagged.bytes "hello" 5) [LuaValue.str "x"] =
      (Except.ok (LuaPush.pushlstring "hello"), ["x"])
    ∧ read_config (fun _ => GoTagged.boolean 1) [LuaValue.str "x"] =
      (Except.ok (LuaPush.pushboolean true), ["x"]) :=
  ⟨(C9_read_config (fun _ => GoTagged.bytes "hello" 5) "x" []).2.1
      "hello" rfl,
   (C9_read_config (fun _ => GoTagged.boolean 1) "x" []).2.2.1 rfl⟩

end Heka
